import Mathlib

set_option maxRecDepth 100000

/-!
# Verification of the `identify` backend's identity-derivation subsystem

Shallow embedding of the model-generation engine of the `identify` repository:

* `gen_id!` / `gen_model!` macro output for `UserId` and `User`
  (`identify-macros/src/id.rs`, `identify-macros/src/model.rs`,
  `identify-domain/src/entities/user/id.rs`, `identify-domain/src/entities/user/mod.rs`);
* the UUID v5 derivation (`uuid::Uuid::new_v5`, i.e. SHA-1 over namespace ++ name
  with version/variant bits forced), with the namespace constant
  `UUID_NAMESPACE = Uuid::from_bytes(*b"identify-backend")`
  (`identify-core/src/models/mod.rs`).

Machine integers are modelled as `Nat` reduced mod `2 ^ 32` where the Rust code
uses `u32` arithmetic; byte strings are `List Nat` with entries below 256.
-/

/-- UTF-8 encoding of a single scalar value, as Rust's `str::as_bytes` produces it. -/
def utf8EncodeCharNat (c : Char) : List Nat :=
  let n := c.toNat
  if n < 0x80 then [n]
  else if n < 0x800 then
    [0xC0 ||| (n >>> 6), 0x80 ||| (n &&& 0x3F)]
  else if n < 0x10000 then
    [0xE0 ||| (n >>> 12), 0x80 ||| ((n >>> 6) &&& 0x3F), 0x80 ||| (n &&& 0x3F)]
  else
    [0xF0 ||| (n >>> 18), 0x80 ||| ((n >>> 12) &&& 0x3F),
      0x80 ||| ((n >>> 6) &&& 0x3F), 0x80 ||| (n &&& 0x3F)]

/-- The UTF-8 bytes of a string: Rust's `str::as_bytes`. -/
def strBytes (s : String) : List Nat :=
  s.data.foldr (fun c acc => utf8EncodeCharNat c ++ acc) []

/-! ## SHA-1 (the hash underlying `uuid::Uuid::new_v5`) -/

/-- Reduction mod `2 ^ 32`, the wrap-around of Rust's `u32`. -/
def w32 (x : Nat) : Nat := x % 4294967296

/-- Left rotation of a 32-bit word (`u32::rotate_left`), for `x < 2 ^ 32`. -/
def rotl32 (s x : Nat) : Nat := w32 ((x <<< s) ||| (x >>> (32 - s)))

/-- Big-endian grouping of bytes into 32-bit words. -/
def toWords : List Nat → List Nat
  | b0 :: b1 :: b2 :: b3 :: rest =>
    ((b0 <<< 24) ||| (b1 <<< 16) ||| (b2 <<< 8) ||| b3) :: toWords rest
  | _ => []

/-- Extend the 16-word block by `k` schedule words:
`w[i] = rotl1 (w[i-3] xor w[i-8] xor w[i-14] xor w[i-16])`. -/
def sha1Extend (ws : List Nat) : Nat → List Nat
  | 0 => ws
  | k + 1 =>
    let prev := sha1Extend ws k
    let l := prev.length
    prev ++ [rotl32 1 ((prev.getD (l - 3) 0) ^^^ (prev.getD (l - 8) 0) ^^^
      (prev.getD (l - 14) 0) ^^^ (prev.getD (l - 16) 0))]

/-- The five 32-bit working registers of SHA-1. -/
structure Sha1State where
  a : Nat
  b : Nat
  c : Nat
  d : Nat
  e : Nat
deriving Repr, DecidableEq

/-- SHA-1 initial state. -/
def sha1Init : Sha1State :=
  ⟨0x67452301, 0xEFCDAB89, 0x98BADCFE, 0x10325476, 0xC3D2E1F0⟩

/-- One SHA-1 round: round index `i`, schedule word `wi`. -/
def sha1Round (i wi : Nat) (st : Sha1State) : Sha1State :=
  let f :=
    if i < 20 then (st.b &&& st.c) ||| ((st.b ^^^ 0xFFFFFFFF) &&& st.d)
    else if i < 40 then st.b ^^^ st.c ^^^ st.d
    else if i < 60 then (st.b &&& st.c) ||| (st.b &&& st.d) ||| (st.c &&& st.d)
    else st.b ^^^ st.c ^^^ st.d
  let k :=
    if i < 20 then 0x5A827999
    else if i < 40 then 0x6ED9EBA1
    else if i < 60 then 0x8F1BBCDC
    else 0xCA62C1D6
  let temp := w32 (rotl32 5 st.a + f + st.e + k + wi)
  ⟨temp, st.a, rotl32 30 st.b, st.c, st.d⟩

/-- Compress one 64-byte block into the running state. -/
def sha1ProcessBlock (st : Sha1State) (block : List Nat) : Sha1State :=
  let ws := sha1Extend (toWords block) 64
  let r := ws.enum.foldl (fun s p => sha1Round p.1 p.2 s) st
  ⟨w32 (st.a + r.a), w32 (st.b + r.b), w32 (st.c + r.c), w32 (st.d + r.d), w32 (st.e + r.e)⟩

/-- Split into 64-byte blocks; `fuel` bounds the recursion (pass the length). -/
def chunks64 : Nat → List Nat → List (List Nat)
  | 0, _ => []
  | _, [] => []
  | fuel + 1, l => l.take 64 :: chunks64 fuel (l.drop 64)

/-- SHA-1 padding: `0x80`, zeros to 56 mod 64, then the 64-bit big-endian bit length. -/
def sha1Pad (msg : List Nat) : List Nat :=
  let bitLen := msg.length * 8
  let padZeros := (120 - (msg.length + 1) % 64) % 64
  msg ++ 0x80 :: List.replicate padZeros 0 ++
    [(bitLen >>> 56) % 256, (bitLen >>> 48) % 256, (bitLen >>> 40) % 256,
      (bitLen >>> 32) % 256, (bitLen >>> 24) % 256, (bitLen >>> 16) % 256,
      (bitLen >>> 8) % 256, bitLen % 256]

/-- Big-endian bytes of one 32-bit word. -/
def wordBytes (w : Nat) : List Nat :=
  [(w >>> 24) % 256, (w >>> 16) % 256, (w >>> 8) % 256, w % 256]

/-- Serialize the final state to the 20-byte digest. -/
def sha1Out (st : Sha1State) : List Nat :=
  wordBytes st.a ++ wordBytes st.b ++ wordBytes st.c ++ wordBytes st.d ++ wordBytes st.e

/-- SHA-1 of a byte string. -/
def sha1 (msg : List Nat) : List Nat :=
  let padded := sha1Pad msg
  sha1Out ((chunks64 padded.length padded).foldl sha1ProcessBlock sha1Init)

/-! ## UUIDs (`uuid` crate, the parts the repository uses) -/

/-- A UUID, as its 16 bytes (`uuid::Uuid`). -/
structure Uuid where
  bytes : List Nat
deriving Repr, DecidableEq

/-- `Uuid::new_v5`: SHA-1 of namespace bytes followed by the name, truncated to
16 bytes, with the version forced to 5 (high nibble of byte 6) and the variant
to RFC 4122 (top bits of byte 8). -/
def Uuid.new_v5 (ns : Uuid) (name : List Nat) : Uuid :=
  let digest := (sha1 (ns.bytes ++ name)).take 16
  let digest := digest.set 6 (((digest.getD 6 0) &&& 0x0F) ||| 0x50)
  let digest := digest.set 8 (((digest.getD 8 0) &&& 0x3F) ||| 0x80)
  ⟨digest⟩

/-- Lowercase hex digit. -/
def hexDigit (n : Nat) : String :=
  [ "0", "1", "2", "3", "4", "5", "6", "7", "8", "9", "a", "b", "c", "d", "e", "f"].getD n "0"

/-- Two lowercase hex digits of a byte. -/
def hexByte (b : Nat) : String := hexDigit (b / 16) ++ hexDigit (b % 16)

/-- Hyphenated lowercase rendering of a UUID (`Display for uuid::Uuid`),
as used by `format!` in `UserId::load`'s error message. -/
def uuidToString (u : Uuid) : String :=
  let hx (l : List Nat) : String := (l.map hexByte).foldl (fun a s => a ++ s) ""
  hx (u.bytes.take 4) ++ "-" ++ hx ((u.bytes.drop 4).take 2) ++ "-" ++
    hx ((u.bytes.drop 6).take 2) ++ "-" ++ hx ((u.bytes.drop 8).take 2) ++ "-" ++
    hx (u.bytes.drop 10)

/-- `identify-core/src/models/mod.rs`:
`pub const UUID_NAMESPACE: Uuid = Uuid::from_bytes(*b"identify-backend");` -/
def UUID_NAMESPACE : Uuid := ⟨strBytes "identify-backend"⟩

/-- The all-zero (nil) UUID, used as a concrete wrong identity below. -/
def uuidNil : Uuid := ⟨List.replicate 16 0⟩

/-- Flip bit `i` (0 ≤ i < 128, bit `i % 8` of byte `i / 8`) of a UUID. -/
def uuidFlipBit (u : Uuid) (i : Nat) : Uuid :=
  ⟨u.bytes.set (i / 8) ((u.bytes.getD (i / 8) 0) ^^^ (1 <<< (i % 8)))⟩

/-! ## The domain error type (`identify-domain/src/lib.rs`) -/

/-- `DomainError`; `Cow` payloads are modelled as `String`. -/
inductive DomainError where
  | IdMismatch (model : String) (message : String)
deriving Repr, DecidableEq

/-- `DomainError::id_mismatch` constructor helper. -/
def DomainError.id_mismatch (model message : String) : DomainError :=
  DomainError.IdMismatch model message

deriving instance DecidableEq for Except

/-! ## `UserId` (`identify-domain/src/entities/user/id.rs`, `gen_id!` output) -/

/-- The `UserId` ID model generated by `gen_id!`. -/
structure UserId where
  email : String
deriving Repr, DecidableEq

/-- `UserIdAttrs`, the new-entity helper generated for `UserId`
(no extra fields; every model field is included). -/
structure UserIdAttrs where
  email : String
deriving Repr, DecidableEq

/-- The `to_uuid` method emitted by `gen_id_helper!`: build the name by
extending an empty buffer with `stringify!(UserId)` bytes, then `b" ID"`,
then each field's `as_bytes()` in declaration order; hash via `new_v5`. -/
def UserId.to_uuid (self : UserId) : Uuid :=
  let name : List Nat := []
  let name := name ++ strBytes "UserId"
  let name := name ++ [0x20, 0x49, 0x44]
  let name := name ++ strBytes self.email
  Uuid.new_v5 UUID_NAMESPACE name

/-- `UserId::new`. -/
def UserId.new (attrs : UserIdAttrs) : UserId := ⟨attrs.email⟩

/-- `UserId::load`: rebuild the ID model, recompute the UUID, and compare with
the externally supplied one. -/
def UserId.load (attrs : UserIdAttrs) (expected : Uuid) : Except DomainError UserId :=
  let id : UserId := ⟨attrs.email⟩
  let generated := id.to_uuid
  if generated ≠ expected then
    Except.error (DomainError.id_mismatch "UserId"
      ("expected " ++ uuidToString expected ++ ", got " ++ uuidToString generated))
  else
    Except.ok id

/-! ## `User` (`identify-domain/src/entities/user/mod.rs`, `gen_model!` output)

`DateTime<Utc>` is modelled as `Int` (a timestamp value); `Utc::now()` becomes
an explicit `now` argument to `User.new`. -/

/-- The `User` entity generated by `gen_model!`. -/
structure User where
  id : UserId
  first_name : String
  last_name : Option String
  created_at : Int
  updated_at : Int
deriving Repr, DecidableEq

/-- `NewUserAttrs`: extra field `email`, then every model field not marked
`#[new(skip)]` (so `id`, `created_at`, `updated_at` are absent). -/
structure NewUserAttrs where
  email : String
  first_name : String
  last_name : Option String
deriving Repr, DecidableEq

/-- `UserAttrs`: extra field `email`, then every model field, with `id`
retyped to `Uuid` per `#[hydrate(type(Uuid))]`. -/
structure UserAttrs where
  email : String
  id : Uuid
  first_name : String
  last_name : Option String
  created_at : Int
  updated_at : Int
deriving Repr, DecidableEq

/-- The getter generated for `id` by `#[get(ref_into(Uuid))]`:
`(&self.id).into()`, i.e. `Uuid::from(&UserId)`, i.e. `to_uuid`.
(Named `get_id` because the Lean projection `User.id` takes the field's name.) -/
def User.get_id (self : User) : Uuid := self.id.to_uuid

/-- The default getter for `first_name` (`&self.first_name`). -/
def User.get_first_name (self : User) : String := self.first_name

/-- The default getter for `last_name`. -/
def User.get_last_name (self : User) : Option String := self.last_name

/-- The default getter for `created_at`. -/
def User.get_created_at (self : User) : Int := self.created_at

/-- The default getter for `updated_at`. -/
def User.get_updated_at (self : User) : Int := self.updated_at

/-- `User::new`; `Utc::now()` is the explicit argument `now`, used for both
timestamps. -/
def User.new (attrs : NewUserAttrs) (now : Int) : User :=
  { id := UserId.new ⟨attrs.email⟩
    first_name := attrs.first_name
    last_name := attrs.last_name
    created_at := now
    updated_at := now }

/-- `User::load`: hydrate via `UserId::load` (the `?` operator propagates its
error), carrying the remaining fields over unchanged. -/
def User.load (attrs : UserAttrs) : Except DomainError User :=
  match UserId.load ⟨attrs.email⟩ attrs.id with
  | Except.error e => Except.error e
  | Except.ok id =>
    Except.ok
      { id := id
        first_name := attrs.first_name
        last_name := attrs.last_name
        created_at := attrs.created_at
        updated_at := attrs.updated_at }

/-- `User::to_attributes`. -/
def User.to_attributes (self : User) : UserAttrs :=
  { id := self.get_id
    email := self.id.email
    first_name := self.first_name
    last_name := self.last_name
    created_at := self.created_at
    updated_at := self.updated_at }

/-! ## The helper-shape generator (`identify-macros/src/model.rs`)

The `@gen-new-helper` / `@gen-hydrate-helper` recursions of `gen_model_helper!`
walk the model's fields in declaration order, starting from the companion
shape's extra fields, and emit one helper field per model field unless the
relevant policy is `skip`, using the override type under `type(T)`.
Fields are `(name, type)` pairs with the Rust type rendered as a string. -/

/-- Per-policy annotation on a model field: nothing, `skip`, or `type(T)`. -/
inductive FieldPolicy where
  | plain
  | skip
  | retype (ty : String)
deriving Repr, DecidableEq

/-- A model field as the macro sees it: name, declared type, and its
`#[new(...)]` and `#[hydrate(...)]` annotations. -/
structure FieldDesc where
  name : String
  ty : String
  newPolicy : FieldPolicy
  hydratePolicy : FieldPolicy
deriving Repr, DecidableEq

/-- The `@gen-new-helper` recursion: `processed` starts as the companion's
extra fields; each model field is appended, dropped, or appended retyped. -/
def genNewHelper (processed : List (String × String)) :
    List FieldDesc → List (String × String)
  | [] => processed
  | f :: rest =>
    match f.newPolicy with
    | FieldPolicy.plain => genNewHelper (processed ++ [(f.name, f.ty)]) rest
    | FieldPolicy.skip => genNewHelper processed rest
    | FieldPolicy.retype t => genNewHelper (processed ++ [(f.name, t)]) rest

/-- The `@gen-hydrate-helper` recursion, same shape but driven by the
`hydrate` policy. -/
def genHydrateHelper (processed : List (String × String)) :
    List FieldDesc → List (String × String)
  | [] => processed
  | f :: rest =>
    match f.hydratePolicy with
    | FieldPolicy.plain => genHydrateHelper (processed ++ [(f.name, f.ty)]) rest
    | FieldPolicy.skip => genHydrateHelper processed rest
    | FieldPolicy.retype t => genHydrateHelper (processed ++ [(f.name, t)]) rest

/-- The field list of the `gen_model! User` invocation, with its `#[new(...)]`
and `#[hydrate(...)]` annotations. -/
def userModelFields : List FieldDesc :=
  [ ⟨"id", "UserId", FieldPolicy.skip, FieldPolicy.retype "Uuid"⟩,
    ⟨"first_name", "String", FieldPolicy.plain, FieldPolicy.plain⟩,
    ⟨"last_name", "Option<String>", FieldPolicy.plain, FieldPolicy.plain⟩,
    ⟨"created_at", "DateTime<Utc>", FieldPolicy.skip, FieldPolicy.plain⟩,
    ⟨"updated_at", "DateTime<Utc>", FieldPolicy.skip, FieldPolicy.plain⟩ ]

/-! ## Generic identity derivation (the `to_uuid` body of `gen_id_helper!`) -/

/-- The name bytes hashed by the generated `to_uuid`, for an ID model with
type name `typeName` and fields whose byte representations are `fieldBytes`
(in declaration order): type-name bytes, then `b" ID"`, then each field's
bytes appended in order. -/
def idNameBytes (typeName : String) (fieldBytes : List (List Nat)) : List Nat :=
  fieldBytes.foldl (fun acc b => acc ++ b) (strBytes typeName ++ [0x20, 0x49, 0x44])

/-- The full generated derivation: `Uuid::new_v5(&ns, &name)` over the bytes
assembled by `idNameBytes`. -/
def deriveIdentity (ns : Uuid) (typeName : String) (fieldBytes : List (List Nat)) : Uuid :=
  Uuid.new_v5 ns (idNameBytes typeName fieldBytes)

/-- Modelled from the spec's words (§4.5), for comparison with the generated
code: "Concatenate `type_name_tag ++ " ID" ++ byte_conversion(field_1) ++ ...
++ byte_conversion(field_n)` in declaration order, hash with the namespaced
deterministic hash function". -/
def specDeriveIdentity (ns : Uuid) (typeNameTag : String) (fieldBytes : List (List Nat)) : Uuid :=
  Uuid.new_v5 ns (strBytes typeNameTag ++ strBytes " ID" ++ fieldBytes.foldr (fun b acc => b ++ acc) [])

/-! ## Sanity checks against independently computed vectors -/

/-- Sanity check against the FIPS 180 test vector for "abc". -/
theorem sha1_abc_vector :
    sha1 (strBytes "abc") =
      [0xa9, 0x99, 0x3e, 0x36, 0x47, 0x06, 0x81, 0x6a, 0xba, 0x3e,
        0x25, 0x71, 0x78, 0x50, 0xc2, 0x6c, 0x9c, 0xd0, 0xd8, 0x9d] := by
  decide

/-- Sanity check: the derived identity of `a@x.com` matches the UUID v5 value
computed by an independent implementation. -/
theorem userId_to_uuid_vector :
    UserId.to_uuid ⟨"a@x.com"⟩ =
      ⟨[91, 123, 70, 234, 62, 179, 81, 208, 189, 36, 136, 221, 227, 138, 90, 188]⟩ := by
  decide

/-- Sanity check of the hyphenated rendering. -/
theorem userId_to_uuid_string_vector :
    uuidToString (UserId.to_uuid ⟨"a@x.com"⟩) = "5b7b46ea-3eb3-51d0-bd24-88dde38a5abc" := by
  decide

/-- The separator literal `b" ID"` equals the UTF-8 bytes of the string `" ID"`. -/
theorem strBytes_sep : strBytes " ID" = [0x20, 0x49, 0x44] := by decide

/-! ## Helper lemmas -/

/-- A SHA-1 digest has 20 bytes. -/
theorem sha1_length (msg : List Nat) : (sha1 msg).length = 20 := by
  simp [sha1, sha1Out, wordBytes]

/-- A v5 UUID has 16 bytes. -/
theorem new_v5_bytes_length (ns : Uuid) (name : List Nat) :
    (Uuid.new_v5 ns name).bytes.length = 16 := by
  simp [Uuid.new_v5, sha1_length]

/-- `to_uuid` always yields a 16-byte UUID. -/
theorem to_uuid_bytes_length (u : UserId) : (UserId.to_uuid u).bytes.length = 16 := by
  simp [UserId.to_uuid, new_v5_bytes_length]

/-- XOR with a nonzero power of two changes a natural number. -/
theorem xor_one_shiftLeft_ne (b j : Nat) : b ^^^ (1 <<< j) ≠ b := by
  intro h
  have h3 : b ^^^ (b ^^^ (1 <<< j)) = b ^^^ b := congrArg (fun x => b ^^^ x) h
  rw [← Nat.xor_assoc, Nat.xor_self, Nat.zero_xor] at h3
  rw [Nat.one_shiftLeft] at h3
  exact absurd h3 (Nat.pos_iff_ne_zero.mp (Nat.pos_pow_of_pos j (by decide)))

/-- Flipping any of the 128 bits of a 16-byte UUID changes it. -/
theorem uuidFlipBit_ne (u : Uuid) (hlen : u.bytes.length = 16) (i : Nat) (hi : i < 128) :
    uuidFlipBit u i ≠ u := by
  intro h
  have hb : (uuidFlipBit u i).bytes = u.bytes := congrArg Uuid.bytes h
  have hidx : i / 8 < (u.bytes.set (i / 8)
      ((u.bytes.getD (i / 8) 0) ^^^ (1 <<< (i % 8)))).length := by
    simp only [List.length_set, hlen]
    omega
  have hidx2 : i / 8 < u.bytes.length := by
    rw [hlen]; omega
  simp only [uuidFlipBit] at hb
  have hg := List.getElem_of_eq hb hidx
  rw [List.getElem_set_self hidx] at hg
  have hd : u.bytes.getD (i / 8) 0 = u.bytes[i / 8] := by
    rw [List.getD_eq_getElem?_getD, List.getElem?_eq_getElem hidx2, Option.getD_some]
  exact xor_one_shiftLeft_ne _ _ (hg.trans hd.symm)

/-! ## Claim theorems -/

/-- C1: for every `UserId` with email `e`, `to_uuid()` is the UUID v5 over the
fixed namespace `UUID_NAMESPACE = Uuid::from_bytes(*b"identify-backend")` of the
name built, in field declaration order, from the type-name bytes `"UserId"`,
the separator `" ID"`, and each field's `as_bytes()` representation — i.e. the
generated code refines the spec's derivation formula. -/
theorem userId_to_uuid_matches_spec_derivation (u : UserId) :
    u.to_uuid = specDeriveIdentity UUID_NAMESPACE "UserId" [strBytes u.email] := by
  simp [UserId.to_uuid, specDeriveIdentity, strBytes_sep, List.append_assoc]

/-- C5: identity derivation is deterministic — `to_uuid` on `UserId` values
with equal field contents agrees, and the generic generated derivation is a
pure function of the namespace, type name, and ordered field bytes. -/
theorem identity_derivation_deterministic :
    (∀ u v : UserId, u.email = v.email → u.to_uuid = v.to_uuid) ∧
    (∀ (ns : Uuid) (tag : String) (fb fb2 : List (List Nat)), fb = fb2 →
      deriveIdentity ns tag fb = deriveIdentity ns tag fb2) := by
  constructor
  · intro u v h
    cases u
    cases v
    cases h
    rfl
  · intro ns tag fb fb2 h
    cases h
    rfl

/-- Witness for C5: two runs on the same email agree. -/
theorem identity_derivation_deterministic_witness :
    UserId.to_uuid ⟨"a@x.com"⟩ = UserId.to_uuid ⟨"a@x.com"⟩ :=
  identity_derivation_deterministic.1 ⟨"a@x.com"⟩ ⟨"a@x.com"⟩ rfl

/-- C9: `User::new` stamps both `created_at` and `updated_at` with the single
instant captured at construction time (`let now = Utc::now()`), so they are
equal on every freshly constructed entity. -/
theorem user_new_timestamps_equal (attrs : NewUserAttrs) (now : Int) :
    (User.new attrs now).created_at = (User.new attrs now).updated_at := rfl

/-- C10: when `User::load` succeeds, every non-identity field is carried over
verbatim from the attributes, and the email stored inside the id equals the
attributes' email — only the identity is checked, nothing is recomputed. -/
theorem user_load_carries_fields_verbatim (attrs : UserAttrs) (u : User)
    (h : User.load attrs = Except.ok u) :
    u.first_name = attrs.first_name ∧ u.last_name = attrs.last_name ∧
    u.created_at = attrs.created_at ∧ u.updated_at = attrs.updated_at ∧
    u.id.email = attrs.email := by
  simp only [User.load, UserId.load] at h
  by_cases hc : UserId.to_uuid ⟨attrs.email⟩ ≠ attrs.id
  · simp [hc] at h
  · simp [hc] at h
    simp [← h]

/-- Witness for C10: a concrete successful hydration carries the fields over. -/
theorem user_load_carries_fields_verbatim_witness :
    ({ id := ⟨"a@x.com"⟩, first_name := "Ada", last_name := some "Lovelace",
        created_at := 1, updated_at := 2 } : User).first_name = "Ada" ∧
    ({ id := ⟨"a@x.com"⟩, first_name := "Ada", last_name := some "Lovelace",
        created_at := 1, updated_at := 2 } : User).last_name = some "Lovelace" ∧
    ({ id := ⟨"a@x.com"⟩, first_name := "Ada", last_name := some "Lovelace",
        created_at := 1, updated_at := 2 } : User).created_at = 1 ∧
    ({ id := ⟨"a@x.com"⟩, first_name := "Ada", last_name := some "Lovelace",
        created_at := 1, updated_at := 2 } : User).updated_at = 2 ∧
    ({ id := ⟨"a@x.com"⟩, first_name := "Ada", last_name := some "Lovelace",
        created_at := 1, updated_at := 2 } : User).id.email = "a@x.com" :=
  user_load_carries_fields_verbatim
    { email := "a@x.com", id := UserId.to_uuid ⟨"a@x.com"⟩, first_name := "Ada",
      last_name := some "Lovelace", created_at := 1, updated_at := 2 }
    { id := ⟨"a@x.com"⟩, first_name := "Ada", last_name := some "Lovelace",
      created_at := 1, updated_at := 2 }
    (by decide)

/-- C7: `User::load` is total with exactly two outcomes — a hydrated entity or
the typed `DomainError::IdMismatch` error; no other result (and in particular
no partial entity) can be produced. -/
theorem user_load_total_ok_or_mismatch (attrs : UserAttrs) :
    (∃ u, User.load attrs = Except.ok u) ∨
    (∃ msg, User.load attrs = Except.error (DomainError.IdMismatch "UserId" msg)) := by
  by_cases hc : UserId.to_uuid ⟨attrs.email⟩ ≠ attrs.id
  · right
    refine ⟨"expected " ++ uuidToString attrs.id ++ ", got " ++
      uuidToString (UserId.to_uuid ⟨attrs.email⟩), ?_⟩
    simp [User.load, UserId.load, DomainError.id_mismatch, hc]
  · left
    refine ⟨{ id := ⟨attrs.email⟩, first_name := attrs.first_name,
                last_name := attrs.last_name, created_at := attrs.created_at,
                updated_at := attrs.updated_at }, ?_⟩
    simp [User.load, UserId.load, hc]

/-- C3: the fresh-path round trip — `User::load(u.to_attributes())` on
`u = User::new(attrs)` succeeds and agrees with `u` on every accessor. -/
theorem user_new_round_trip (attrs : NewUserAttrs) (now : Int) :
    ∃ v, User.load ((User.new attrs now).to_attributes) = Except.ok v ∧
      v.get_id = (User.new attrs now).get_id ∧
      v.get_first_name = (User.new attrs now).get_first_name ∧
      v.get_last_name = (User.new attrs now).get_last_name ∧
      v.get_created_at = (User.new attrs now).get_created_at ∧
      v.get_updated_at = (User.new attrs now).get_updated_at := by
  refine ⟨User.new attrs now, ?_, rfl, rfl, rfl, rfl, rfl⟩
  simp [User.load, User.to_attributes, User.new, UserId.load, UserId.new, User.get_id]

/-- C2: `UserId::load(attrs, expected)` returns `Ok` exactly when `expected`
equals the identity recomputed from `attrs`; whenever they differ — in
particular for any single-bit flip of the correct identity — it returns
`Err(DomainError::IdMismatch)` carrying the type name `"UserId"` and both the
expected and the recomputed UUID values. -/
theorem userId_load_mismatch_detection (attrs : UserIdAttrs) (expected : Uuid) :
    (UserId.load attrs expected = Except.ok ⟨attrs.email⟩ ↔
      expected = UserId.to_uuid ⟨attrs.email⟩) ∧
    (expected ≠ UserId.to_uuid ⟨attrs.email⟩ →
      UserId.load attrs expected = Except.error (DomainError.IdMismatch "UserId"
        ("expected " ++ uuidToString expected ++ ", got " ++
          uuidToString (UserId.to_uuid ⟨attrs.email⟩)))) ∧
    (∀ i : Nat, i < 128 →
      UserId.load attrs (uuidFlipBit (UserId.to_uuid ⟨attrs.email⟩) i) =
        Except.error (DomainError.IdMismatch "UserId"
          ("expected " ++ uuidToString (uuidFlipBit (UserId.to_uuid ⟨attrs.email⟩) i) ++
            ", got " ++ uuidToString (UserId.to_uuid ⟨attrs.email⟩)))) := by
  have herr : ∀ exp : Uuid, exp ≠ UserId.to_uuid ⟨attrs.email⟩ →
      UserId.load attrs exp = Except.error (DomainError.IdMismatch "UserId"
        ("expected " ++ uuidToString exp ++ ", got " ++
          uuidToString (UserId.to_uuid ⟨attrs.email⟩))) := by
    intro exp h
    simp [UserId.load, DomainError.id_mismatch, Ne.symm h]
  refine ⟨⟨?_, ?_⟩, herr expected, fun i hi =>
    herr _ (uuidFlipBit_ne _ (to_uuid_bytes_length _) i hi)⟩
  · intro h
    by_cases hc : UserId.to_uuid ⟨attrs.email⟩ ≠ expected
    · rw [herr expected (Ne.symm hc)] at h
      exact absurd h (by simp)
    · rw [not_ne_iff] at hc
      exact hc.symm
  · intro h
    subst h
    simp [UserId.load]

/-- Witness for C2: a concrete mismatching identity (the nil UUID) is rejected
with the typed error carrying both values. -/
theorem userId_load_mismatch_detection_witness :
    UserId.load ⟨"a@x.com"⟩ uuidNil = Except.error (DomainError.IdMismatch "UserId"
      ("expected " ++ uuidToString uuidNil ++ ", got " ++
        uuidToString (UserId.to_uuid ⟨"a@x.com"⟩))) :=
  (userId_load_mismatch_detection ⟨"a@x.com"⟩ uuidNil).2.1 (by decide)

/-- C4 counterexample: two fields with distinct byte representations (`"a"`
and `"aa"`) whose concatenations coincide in both orders produce the SAME
derived identity after swapping, so reordering distinct-byte-valued fields
does not always change the derived UUID. -/
theorem reorder_distinct_fields_same_identity_counterexample :
    strBytes "a" ≠ strBytes "aa" ∧
    deriveIdentity UUID_NAMESPACE "SampleId" [strBytes "a", strBytes "aa"] =
      deriveIdentity UUID_NAMESPACE "SampleId" [strBytes "aa", strBytes "a"] := by
  decide

/-- C4 (amended): swapping the two fields of an identity model leaves the
hashed name bytes unchanged exactly when the two byte representations commute
under concatenation (`a ++ b = b ++ a`); distinct-valued fields can commute
(see the counterexample), while for non-commuting values such as `"a"`/`"b"`
the derived UUID does change. -/
theorem reorder_fields_changes_name_iff_noncommuting :
    (∀ (tag : String) (a b : List Nat),
      idNameBytes tag [a, b] = idNameBytes tag [b, a] ↔ a ++ b = b ++ a) ∧
    deriveIdentity UUID_NAMESPACE "SampleId" [strBytes "a", strBytes "b"] ≠
      deriveIdentity UUID_NAMESPACE "SampleId" [strBytes "b", strBytes "a"] := by
  constructor
  · intro tag a b
    simp [idNameBytes, List.append_assoc]
  · decide

/-- C6: running the macro's helper-shape recursions on the `User` schema, the
constructor shape holds exactly the companion's extra field `email` plus the
model fields not marked `new(skip)` (`first_name`, `last_name`), and the
hydration shape holds `email` plus every model field, with `id` retyped to
`Uuid`; `id`, `created_at`, `updated_at` are absent from the constructor shape
and present in the hydration shape. -/
theorem user_helper_shapes :
    genNewHelper [("email", "String")] userModelFields =
      [("email", "String"), ("first_name", "String"), ("last_name", "Option<String>")] ∧
    genHydrateHelper [("email", "String")] userModelFields =
      [("email", "String"), ("id", "Uuid"), ("first_name", "String"),
        ("last_name", "Option<String>"), ("created_at", "DateTime<Utc>"),
        ("updated_at", "DateTime<Utc>")] := by
  decide

/-- C8: the concrete scenario for `UserId` with namespace `UUID_NAMESPACE`:
derivation for `a@x.com` is repeatable; `a@x.com` and `b@x.com` derive
different UUIDs; `load` succeeds on the derived value and fails with
`IdMismatch` on every other UUID. -/
theorem userId_scenario :
    UserId.to_uuid ⟨"a@x.com"⟩ = UserId.to_uuid ⟨"a@x.com"⟩ ∧
    UserId.to_uuid ⟨"a@x.com"⟩ ≠ UserId.to_uuid ⟨"b@x.com"⟩ ∧
    UserId.load ⟨"a@x.com"⟩ (UserId.to_uuid ⟨"a@x.com"⟩) = Except.ok ⟨"a@x.com"⟩ ∧
    ∀ u : Uuid, u ≠ UserId.to_uuid ⟨"a@x.com"⟩ →
      UserId.load ⟨"a@x.com"⟩ u = Except.error (DomainError.IdMismatch "UserId"
        ("expected " ++ uuidToString u ++ ", got " ++
          uuidToString (UserId.to_uuid ⟨"a@x.com"⟩))) := by
  refine ⟨rfl, by decide, by decide, fun u h => ?_⟩
  simp [UserId.load, DomainError.id_mismatch, Ne.symm h]

/-- Witness for C8: the identity derived for `b@x.com` is a concrete "other
value" that `load` rejects for `a@x.com`. -/
theorem userId_scenario_witness :
    UserId.load ⟨"a@x.com"⟩ (UserId.to_uuid ⟨"b@x.com"⟩) =
      Except.error (DomainError.IdMismatch "UserId"
        ("expected " ++ uuidToString (UserId.to_uuid ⟨"b@x.com"⟩) ++ ", got " ++
          uuidToString (UserId.to_uuid ⟨"a@x.com"⟩))) :=
  userId_scenario.2.2.2 (UserId.to_uuid ⟨"b@x.com"⟩) (by decide)
